import Mathlib

/-!
Shallow embedding of the home-finder core (area scoring, commute caching,
retry/backoff, enrichment gatherers, station directory, exclusion-zone
filter) translated from the Python sources under src/, together with
theorems settling the specification claims.

Modelling conventions:
* Python ints/floats become Nat/Int/Rat.
* Python strings become lists of characters (Str); str.lower() on the
  ASCII data handled here becomes an explicit ASCII lowering map.
* Python dict results become fixed-shape records; a possibly-missing key
  becomes an Option field.
* Fallible external calls become explicit Except/Option parameters
  describing the observable behaviour of the external service; wall-clock
  sleeps become a recorded list of delay values.
* Floating-point trigonometry (the haversine distance) is abstracted as a
  distance-valued parameter: theorems about code that consumes a computed
  distance quantify over that value.
-/

namespace HomeFinder

/-- Python strings, as character lists. -/
abbrev Str := List Char

/-- ASCII lowering, the effect of str.lower() on the ASCII data used by
the program. -/
def lowChar (c : Char) : Char :=
  if 65 ≤ c.toNat ∧ c.toNat ≤ 90 then Char.ofNat (c.toNat + 32) else c

def lowStr (s : Str) : Str := s.map lowChar

/-- needle-is-a-leading-segment test used by the substring scan. -/
def startsWithCL : Str → Str → Bool
  | _, [] => true
  | [], _ :: _ => false
  | a :: as, b :: bs => a == b && startsWithCL as bs

/-- Python's `needle in hay` substring containment. -/
def hasSubCL : Str → Str → Bool
  | hay, needle =>
    match hay with
    | [] => needle.isEmpty
    | _ :: t => startsWithCL hay needle || hasSubCL t needle

/-! ## Python round

Python's built-in round() rounds to the nearest integer, ties to even
(banker's rounding).  Modelled on Rat. -/

def pyRound (q : ℚ) : ℤ :=
  if q - ⌊q⌋ < 1/2 then ⌊q⌋
  else if 1/2 < q - ⌊q⌋ then ⌊q⌋ + 1
  else if ⌊q⌋ % 2 = 0 then ⌊q⌋ else ⌊q⌋ + 1

/-! ## Scoring engine (src/core/scorer.py)

Configuration values read from criteria.yaml are modelled as a record of
parameters; the code's .get defaults (penalty 15, thresholds 50/100/200)
are the record's defaults. -/

structure Criteria where
  max_minutes : ℚ
  penalty_per_change : ℚ := 15
  excellent_threshold : ℚ := 50
  good_threshold : ℚ := 100
  acceptable_threshold : ℚ := 200

/-- The fields of the area dict read by score_area.  A missing
commute_minutes key is modelled as none. -/
structure Area where
  commute_minutes : Option ℚ
  mainline_changes : ℕ := 0

/-- One named point of interest with its distance in metres; ptype models
the optional "type" key some entries carry. -/
structure POIItem where
  name : Str
  lat : ℚ
  lng : ℚ
  distance_m : ℤ
  ptype : Option Str := none
deriving Repr, DecidableEq

structure AmenitiesResult where
  supermarkets : List POIItem
  pharmacies : List POIItem
  restaurants : List POIItem
  api_success : Bool
  error : Option Str
deriving Repr, DecidableEq

structure NatureResult where
  parks : List POIItem
  parks_count : ℕ
  nature_reserves : List POIItem
  countryside_access : Bool
  api_success : Bool
  error : Option Str
deriving Repr, DecidableEq

structure CrimeResult where
  total_crimes : ℕ
  crimes_by_category : List (Str × ℕ)
  month : Option Str
  serious_crimes : ℕ
  property_crimes : ℕ
  antisocial_behaviour : ℕ
  api_success : Bool
  error : Option Str
deriving Repr, DecidableEq

/-- scorer.py line 39: commute = area.get("commute_minutes", max_minutes). -/
def commuteValue (cr : Criteria) (a : Area) : ℚ :=
  a.commute_minutes.getD cr.max_minutes

/-- scorer.py lines 41-47: the base piecewise commute curve. -/
def commuteBase (cr : Criteria) (commute : ℚ) : ℚ :=
  if commute ≤ 30 then 100
  else if cr.max_minutes ≤ commute then 0
  else 100 - ((commute - 30) / (cr.max_minutes - 30)) * 100

/-- scorer.py lines 39-56: base curve plus the mainline-change penalty,
floored at 0, applied only when mainline_changes > 0. -/
def commuteSubScore (cr : Criteria) (a : Area) : ℚ :=
  let base := commuteBase cr (commuteValue cr a)
  if 0 < a.mainline_changes then
    max 0 (base - (a.mainline_changes : ℚ) * cr.penalty_per_change)
  else base

/-- scorer.py lines 60-66. -/
def natureSubScore (nature : NatureResult) : ℚ :=
  let base : ℚ := min 100 ((nature.parks_count : ℚ) * 15)
  if nature.countryside_access then min 100 (base + 30) else base

/-- scorer.py lines 70-77. -/
def amenitiesSubScore (amenities : AmenitiesResult) : ℚ :=
  let n := amenities.supermarkets.length
  if 3 ≤ n then 100
  else if 1 ≤ n then 60 + ((n : ℚ) - 1) * 20
  else 20

/-- scorer.py line 99: serious crimes are counted twice. -/
def weightedCrimes (c : CrimeResult) : ℚ :=
  (c.total_crimes : ℚ) + (c.serious_crimes : ℚ)

/-- scorer.py lines 90-117.  crime is optional (crime = crime or {}) and a
missing or falsy api_success yields the neutral 70. -/
def safetySubScore (cr : Criteria) (crime : Option CrimeResult) : ℚ :=
  match crime with
  | none => 70
  | some c =>
    if c.api_success then
      let w := weightedCrimes c
      if w ≤ cr.excellent_threshold then 100
      else if w ≤ cr.good_threshold then
        100 - ((w - cr.excellent_threshold) /
          (cr.good_threshold - cr.excellent_threshold)) * 20
      else if w ≤ cr.acceptable_threshold then
        80 - ((w - cr.good_threshold) /
          (cr.acceptable_threshold - cr.good_threshold)) * 30
      else
        max 0 (50 - ((w - cr.acceptable_threshold) / cr.acceptable_threshold) * 50)
    else 70

/-- The scoring weight table from config ("scoring" section); an absent
key contributes nothing to the weighted sum. -/
structure Weights where
  commute : Option ℚ := none
  nature : Option ℚ := none
  amenities : Option ℚ := none
  price : Option ℚ := none
  general_vibe : Option ℚ := none
  safety : Option ℚ := none

/-- One term of scorer.py line 123: (scores[key] / 100) * weight, or 0
when the key is absent from the weight table. -/
def contrib (w : Option ℚ) (s : ℚ) : ℚ :=
  match w with
  | some weight => s / 100 * weight
  | none => 0

def weightSum (w : Weights) : ℚ :=
  (w.commute.getD 0) + (w.nature.getD 0) + (w.amenities.getD 0) +
    (w.price.getD 0) + (w.general_vibe.getD 0) + (w.safety.getD 0)

/-- scorer.py lines 18-125: the six sub-scores (price and general_vibe are
the fixed placeholders 70) combined by the weighted sum and rounded. -/
def score_area (cr : Criteria) (w : Weights) (area : Area)
    (amenities : AmenitiesResult) (nature : NatureResult)
    (crime : Option CrimeResult) : ℤ :=
  pyRound
    (contrib w.commute (commuteSubScore cr area) +
     contrib w.nature (natureSubScore nature) +
     contrib w.amenities (amenitiesSubScore amenities) +
     contrib w.price 70 +
     contrib w.general_vibe 70 +
     contrib w.safety (safetySubScore cr crime))

/-! ## Commute time cache and resolver (src/core/commute.py)

The persistent JSON cache is modelled as a total map from (lowercased)
station names to optional cached minutes.  The two travel-time providers
are modelled by their observable behaviour: whether credentials are
configured, and the Option result a query would yield (None covers both
"no route found" and the caught network errors).  The resolver result is
paired with the number of provider queries issued, so cache-hit theorems
can state that no external call happens. -/

def Cache : Type := Str → Option ℕ

def emptyCache : Cache := fun _ => none

/-- commute.py lines 44-46. -/
def get_cached_time (cache : Cache) (station_name : Str) : Option ℕ :=
  cache (lowStr station_name)

/-- commute.py lines 48-51 (the disk flush is the identity on the map). -/
def cache_time (cache : Cache) (station_name : Str) (minutes : ℕ) : Cache :=
  fun k => if k = lowStr station_name then some minutes else cache k

structure ProviderEnv where
  traveltime_configured : Bool
  traveltime_result : Option ℕ
  google_configured : Bool
  google_result : Option ℕ

/-- commute.py lines 53-83: cache first, then TravelTime when configured,
then Google Maps when configured, else none.  Second component counts the
provider queries actually issued. -/
def get_train_time_to_kx (env : ProviderEnv) (cache : Cache)
    (station_name : Str) : Option ℕ × ℕ :=
  match get_cached_time cache station_name with
  | some cached => (some cached, 0)
  | none =>
    let a : Option ℕ × ℕ :=
      if env.traveltime_configured then (env.traveltime_result, 1) else (none, 0)
    match a.1 with
    | some t => (some t, a.2)
    | none =>
      let b : Option ℕ × ℕ :=
        if env.google_configured then (env.google_result, 1) else (none, 0)
      match b.1 with
      | some t => (some t, a.2 + b.2)
      | none => (none, a.2 + b.2)

/-! ### Departure-time computation (commute.py lines 158-185)

Both _next_weekday_8am and _next_weekday_8am_timestamp share this logic.
Python weekday(): Monday = 0 .. Sunday = 6.  The result of the computation
is captured by the number of whole days added to today's date (the target
clock time is always 08:00). -/

/-- commute.py lines 164-166: days until next Monday, zero on a weekday. -/
def daysAhead (weekday : ℕ) : ℕ :=
  if weekday < 5 then 0 else (7 - weekday) % 7

/-- commute.py lines 168-169: days added to today before fixing 08:00. -/
def nextWeekday8amOffset (weekday hour : ℕ) : ℕ :=
  let d := daysAhead weekday
  if 0 < d then d else (if 8 ≤ hour then 1 else 0)

/-- Weekday (0 = Monday) of the departure date the code produces. -/
def departureWeekday (weekday hour : ℕ) : ℕ :=
  (weekday + nextWeekday8amOffset weekday hour) % 7

/-! ## Retry with exponential backoff (src/core/enrichers.py lines 29-98)

The function under retry is modelled as a script mapping the attempt
number to that attempt's outcome.  Sleeps are recorded in order instead of
elapsing; the trace also counts how many attempts were made. -/

inductive AttemptOutcome (α : Type) where
  | success (v : α)
  | httpError (status : ℕ)
  | timeoutErr
  | connectErr
  | otherErr
deriving Repr

inductive RetryError where
  | httpError (status : ℕ)
  | timeoutErr
  | connectErr
  | otherErr
deriving Repr, DecidableEq

structure RetryTrace (α : Type) where
  result : Except RetryError α
  sleeps : List ℚ
  calls : ℕ
deriving Repr

def consSleep {α : Type} (d : ℚ) (t : RetryTrace α) : RetryTrace α :=
  { t with sleeps := d :: t.sleeps, calls := t.calls + 1 }

/-- One iteration of the loop in _retry_with_backoff, lines 52-96; fuel is
the number of loop iterations remaining (max_retries - attempt).  On the
last permitted attempt every failure re-raises; on earlier attempts
retryable failures sleep and double the delay (capped), and a 429 response
additionally doubles the delay before sleeping (lines 60-66). -/
def retryFrom {α : Type} (script : ℕ → AttemptOutcome α) (maxRetries : ℕ)
    (maxDelay : ℚ) (retryOn : List ℕ) :
    ℕ → ℕ → ℚ → RetryTrace α
  | _, 0, _ =>
    -- loop body exhausted: line 98 re-raises the last stored error
    -- (reachable only when max_retries = 0, where Python would raise None;
    -- modelled as a generic error)
    { result := .error .otherErr, sleeps := [], calls := 0 }
  | attempt, fuel + 1, delay =>
    match script attempt with
    | .success v => { result := .ok v, sleeps := [], calls := 1 }
    | .httpError status =>
      if status ∈ retryOn ∧ attempt < maxRetries - 1 then
        if status = 429 then
          let d1 := min (delay * 2) maxDelay
          consSleep d1
            (retryFrom script maxRetries maxDelay retryOn (attempt + 1) fuel
              (min (d1 * 2) maxDelay))
        else
          consSleep delay
            (retryFrom script maxRetries maxDelay retryOn (attempt + 1) fuel
              (min (delay * 2) maxDelay))
      else { result := .error (.httpError status), sleeps := [], calls := 1 }
    | .timeoutErr =>
      if attempt < maxRetries - 1 then
        consSleep delay
          (retryFrom script maxRetries maxDelay retryOn (attempt + 1) fuel
            (min (delay * 2) maxDelay))
      else { result := .error .timeoutErr, sleeps := [], calls := 1 }
    | .connectErr =>
      if attempt < maxRetries - 1 then
        consSleep delay
          (retryFrom script maxRetries maxDelay retryOn (attempt + 1) fuel
            (min (delay * 2) maxDelay))
      else { result := .error .connectErr, sleeps := [], calls := 1 }
    | .otherErr =>
      if attempt < maxRetries - 1 then
        consSleep delay
          (retryFrom script maxRetries maxDelay retryOn (attempt + 1) fuel
            (min (delay * 2) maxDelay))
      else { result := .error .otherErr, sleeps := [], calls := 1 }

/-- enrichers.py defaults: max_retries=3, initial_delay=2.0,
max_delay=30.0, retry_on_status=(429, 500, 502, 503, 504). -/
def defaultRetryOn : List ℕ := [429, 500, 502, 503, 504]

def retry_with_backoff {α : Type} (script : ℕ → AttemptOutcome α)
    (maxRetries : ℕ := 3) (initialDelay : ℚ := 2) (maxDelay : ℚ := 30)
    (retryOn : List ℕ := defaultRetryOn) : RetryTrace α :=
  retryFrom script maxRetries maxDelay retryOn 0 maxRetries initialDelay

/-! ## Enrichment gatherers (src/core/enrichers.py lines 127-465)

Each gatherer is a total function of the observable outcome of its
(retried) external fetch: either a raised error (any of the caught
exception classes) or the parsed response payload.  The haversine metre
distance (floating-point trigonometry in _calculate_distance_m) is
abstracted as the distM parameter. -/

inductive FetchError where
  | timeoutErr (detail : Str)
  | httpStatus (status : ℕ) (detail : Str)
  | otherErr (detail : Str)
deriving Repr, DecidableEq

def natStr (n : ℕ) : Str := (Nat.repr n).data

/-- enrichers.py lines 212-228: the three error messages of
gather_amenities. -/
def amenitiesErrorMsg : FetchError → Str
  | .timeoutErr d => "API timeout after retries: ".data ++ d
  | .httpStatus s d => "API error (HTTP ".data ++ natStr s ++ "): ".data ++ d
  | .otherErr d => "Failed to gather amenities: ".data ++ d

/-- enrichers.py lines 320-336. -/
def natureErrorMsg : FetchError → Str
  | .timeoutErr d => "API timeout after retries: ".data ++ d
  | .httpStatus s d => "API error (HTTP ".data ++ natStr s ++ "): ".data ++ d
  | .otherErr d => "Failed to gather nature data: ".data ++ d

/-- enrichers.py lines 447-463. -/
def crimeErrorMsg : FetchError → Str
  | .timeoutErr d => "Police API timeout: ".data ++ d
  | .httpStatus s d => "Police API error (HTTP ".data ++ natStr s ++ "): ".data ++ d
  | .otherErr d => "Failed to gather crime data: ".data ++ d

/-- Python's `a or b` on optional strings (empty string is falsy). -/
def pyOrStr (a b : Option Str) : Option Str :=
  match a with
  | some s => if s = [] then b else some s
  | none => b

structure OsmTags where
  name : Option Str := none
  brand : Option Str := none
  shop : Option Str := none
  amenity : Option Str := none
  leisure : Option Str := none
  landuse : Option Str := none
  naturalTag : Option Str := none
deriving Repr, DecidableEq

structure OsmElement where
  tags : OsmTags := {}
  center : Option (ℚ × ℚ) := none
  lat : Option ℚ := none
  lon : Option ℚ := none
deriving Repr, DecidableEq

/-- enrichers.py lines 174-180: centre coordinates for ways, direct
coordinates for nodes; elements without resolvable coordinates yield
none and are skipped. -/
def elementCoords (e : OsmElement) : Option (ℚ × ℚ) :=
  match e.center with
  | some c => some c
  | none =>
    match e.lat, e.lon with
    | some la, some lo => some (la, lo)
    | _, _ => none

def unknownName : Str := "Unknown".data

/-- Stable ascending insertion by distance, the effect of Python's
sorted(key=distance_m). -/
def insertByDist (x : POIItem) : List POIItem → List POIItem
  | [] => [x]
  | y :: ys =>
    if y.distance_m ≤ x.distance_m then y :: insertByDist x ys
    else x :: y :: ys

def sortByDist : List POIItem → List POIItem
  | [] => []
  | x :: xs => insertByDist x (sortByDist xs)

structure AmenState where
  seen : List Str := []
  supermarkets : List POIItem := []
  pharmacies : List POIItem := []

/-- enrichers.py lines 164-199: one element of the amenities response. -/
def amenStep (distM : ℚ → ℚ → ℚ → ℚ → ℤ) (lat lng : ℚ)
    (st : AmenState) (e : OsmElement) : AmenState :=
  let name := e.tags.name.getD (e.tags.brand.getD unknownName)
  if name ≠ unknownName ∧ name ∈ st.seen then st
  else
    let seen := if name ≠ unknownName then name :: st.seen else st.seen
    match elementCoords e with
    | none => { st with seen := seen }
    | some (elat, elng) =>
      let item : POIItem :=
        { name := name, lat := elat, lng := elng,
          distance_m := distM lat lng elat elng }
      if e.tags.shop = some "supermarket".data then
        { st with seen := seen, supermarkets := st.supermarkets ++ [item] }
      else if e.tags.shop = some "convenience".data then
        { st with
          seen := seen
          supermarkets := st.supermarkets ++
            [{ item with ptype := some "convenience".data }] }
      else if e.tags.amenity = some "pharmacy".data then
        { st with seen := seen, pharmacies := st.pharmacies ++ [item] }
      else { st with seen := seen }

/-- enrichers.py lines 127-230. -/
def gather_amenities (distM : ℚ → ℚ → ℚ → ℚ → ℤ) (lat lng : ℚ)
    (ext : Except FetchError (List OsmElement)) : AmenitiesResult :=
  match ext with
  | .error e =>
    { supermarkets := [], pharmacies := [], restaurants := [],
      api_success := false, error := some (amenitiesErrorMsg e) }
  | .ok elements =>
    let st := elements.foldl (amenStep distM lat lng) {}
    { supermarkets := sortByDist st.supermarkets,
      pharmacies := sortByDist st.pharmacies,
      restaurants := [],
      api_success := true, error := none }

structure NatureState where
  seen : List Str := []
  parks : List POIItem := []
  reserves : List POIItem := []
  countryside : Bool := false

/-- enrichers.py lines 273-306: one element of the nature response. -/
def natureStep (distM : ℚ → ℚ → ℚ → ℚ → ℤ) (lat lng : ℚ)
    (st : NatureState) (e : OsmElement) : NatureState :=
  match e.tags.name with
  | none => st
  | some nm =>
    if nm = [] ∨ nm ∈ st.seen then st
    else
      let seen := nm :: st.seen
      match elementCoords e with
      | none => { st with seen := seen }
      | some (elat, elng) =>
        let item : POIItem :=
          { name := nm, lat := elat, lng := elng,
            distance_m := distM lat lng elat elng,
            ptype := pyOrStr e.tags.leisure
              (pyOrStr e.tags.landuse e.tags.naturalTag) }
        if e.tags.leisure = some "park".data ∨
            e.tags.leisure = some "garden".data then
          { st with seen := seen, parks := st.parks ++ [item] }
        else if e.tags.leisure = some "nature_reserve".data ∨
            e.tags.landuse = some "forest".data ∨
            e.tags.naturalTag = some "wood".data then
          { st with
            seen := seen
            reserves := st.reserves ++ [item]
            countryside := true }
        else { st with seen := seen }

/-- enrichers.py lines 233-338. -/
def gather_nature_data (distM : ℚ → ℚ → ℚ → ℚ → ℤ) (lat lng : ℚ)
    (ext : Except FetchError (List OsmElement)) : NatureResult :=
  match ext with
  | .error e =>
    { parks := [], parks_count := 0, nature_reserves := [],
      countryside_access := false,
      api_success := false, error := some (natureErrorMsg e) }
  | .ok elements =>
    let st := elements.foldl (natureStep distM lat lng) {}
    let parks := (sortByDist st.parks).take 10
    { parks := parks,
      parks_count := parks.length,
      nature_reserves := (sortByDist st.reserves).take 5,
      countryside_access := st.countryside,
      api_success := true, error := none }

structure Incident where
  category : Option Str := none
  month : Option Str := none
deriving Repr, DecidableEq

/-- Increment the count of a category in an insertion-ordered
association list, the effect of the dict update on line 414. -/
def bumpCount : List (Str × ℕ) → Str → List (Str × ℕ)
  | [], cat => [(cat, 1)]
  | (c, n) :: rest, cat =>
    if c = cat then (c, n + 1) :: rest else (c, n) :: bumpCount rest cat

def strList (l : List String) : List Str := l.map String.data

/-- enrichers.py lines 385-388. -/
def seriousCategories : List Str :=
  strList ["violent-crime", "violence-and-sexual-offences",
    "robbery", "possession-of-weapons", "public-order"]

/-- enrichers.py lines 391-394. -/
def propertyCategories : List Str :=
  strList ["burglary", "theft-from-the-person", "vehicle-crime",
    "bicycle-theft", "shoplifting", "other-theft"]

def sumCounts (counts : List (Str × ℕ)) (cats : List Str) : ℕ :=
  (counts.filter (fun p => p.1 ∈ cats)).foldl (fun n p => n + p.2) 0

/-- enrichers.py lines 361-465. -/
def gather_crime_data (ext : Except FetchError (List Incident)) : CrimeResult :=
  match ext with
  | .error e =>
    { total_crimes := 0, crimes_by_category := [], month := none,
      serious_crimes := 0, property_crimes := 0, antisocial_behaviour := 0,
      api_success := false, error := some (crimeErrorMsg e) }
  | .ok incidents =>
    let counts := incidents.foldl
      (fun acc i => bumpCount acc (i.category.getD "other-crime".data)) []
    let month := incidents.foldl
      (fun acc i =>
        match acc, i.month with
        | none, some m => if m = [] then none else some m
        | _, _ => acc) none
    { total_crimes := incidents.length,
      crimes_by_category := counts,
      month := month,
      serious_crimes := sumCounts counts seriousCategories,
      property_crimes := sumCounts counts propertyCategories,
      antisocial_behaviour := ((counts.lookup "anti-social-behaviour".data).getD 0),
      api_success := true, error := none }

/-! ## Station directory (src/core/stations.py)

The persisted snapshot is an Option (present file contents or absence);
the external Overpass query is an Except (parsed elements or any caught
exception).  refresh catches every error and falls back; the directory
after the load-or-refresh sequence (construction plus refresh-when-empty,
lines 41-49 and 119-122/135-138) is loadOrRefresh. -/

structure Station where
  name : Str
  lat : ℚ
  lng : ℚ
  town : Option Str := none
  operator : Option Str := none
  network : Option Str := none
deriving Repr, DecidableEq

structure RawStationElement where
  etype : Str := "node".data
  name : Option Str := none
  lat : ℚ := 0
  lon : ℚ := 0
  city : Option Str := none
  town : Option Str := none
  operator : Option Str := none
  network : Option Str := none
deriving Repr, DecidableEq

/-- stations.py lines 80-91: only nodes are kept. -/
def parseStations (elements : List RawStationElement) : List Station :=
  elements.filterMap fun e =>
    if e.etype = "node".data then
      some { name := e.name.getD unknownName, lat := e.lat, lng := e.lon,
             town := pyOrStr e.city e.town, operator := e.operator,
             network := e.network }
    else none

/-- stations.py lines 102-117: the hardcoded fallback list. -/
def fallbackStations : List Station :=
  [ { name := "St Albans City".data, lat := 51.7500, lng := -0.3275,
      town := some "St Albans".data },
    { name := "Hitchin".data, lat := 51.9467, lng := -0.2604,
      town := some "Hitchin".data },
    { name := "Stevenage".data, lat := 51.9019, lng := -0.2065,
      town := some "Stevenage".data },
    { name := "Welwyn Garden City".data, lat := 51.8014, lng := -0.2033,
      town := some "Welwyn Garden City".data },
    { name := "Hatfield".data, lat := 51.7636, lng := -0.2155,
      town := some "Hatfield".data },
    { name := "Potters Bar".data, lat := 51.6981, lng := -0.1803,
      town := some "Potters Bar".data },
    { name := "Luton".data, lat := 51.8822, lng := -0.4147,
      town := some "Luton".data },
    { name := "Bedford".data, lat := 52.1361, lng := -0.4797,
      town := some "Bedford".data },
    { name := "Cambridge".data, lat := 52.1943, lng := 0.1376,
      town := some "Cambridge".data },
    { name := "Peterborough".data, lat := 52.5750, lng := -0.2486,
      town := some "Peterborough".data } ]

/-- stations.py lines 57-100: the station list refresh leaves after its
try/except — parsed elements on success, the fallback list on any
external-source failure. -/
def refreshResult (ext : Except Str (List RawStationElement)) : List Station :=
  match ext with
  | .ok elements => parseStations elements
  | .error _ => fallbackStations

/-- refresh as a fallible operation: the catch-all on lines 97-100 means
it always returns normally. -/
def refreshE (ext : Except Str (List RawStationElement)) :
    Except Str (List Station) :=
  .ok (refreshResult ext)

/-- Load the persisted snapshot when present (lines 44-49), refreshing
when the loaded directory is empty (lines 121-122, 137-138). -/
def loadOrRefresh (snapshot : Option (List Station))
    (ext : Except Str (List RawStationElement)) : List Station :=
  match snapshot with
  | some s => if s = [] then refreshResult ext else s
  | none => refreshResult ext

/-! ## Exclusion-zone filter (src/scripts/find_commutable_areas.py 60-107)

The keyword list is reproduced verbatim; the haversine distance from
King's Cross computed on lines 100-105 from (lat, lng) is abstracted as
the distKm parameter (floating-point trigonometry). -/

def londonKeywords : List Str :=
  strList
    [ "london ", "kings cross", "king\x27s cross", "st pancras", "euston",
      "paddington", "liverpool street", "fenchurch", "cannon street",
      "waterloo", "victoria", "charing cross", "blackfriars", "moorgate",
      "marylebone", "old street", "angel", "bank", "monument", "tower",
      "aldgate", "shoreditch", "whitechapel", "stratford", "west ham",
      "canning town", "canary wharf", "greenwich", "lewisham", "peckham",
      "brixton", "clapham", "battersea", "vauxhall", "elephant", "borough",
      "southwark", "bermondsey", "finsbury park", "highbury", "islington",
      "hackney", "dalston", "bethnal green", "mile end", "bow",
      "tottenham hale", "seven sisters", "camden", "kentish town",
      "hampstead", "kilburn", "willesden", "cricklewood", "west hampstead",
      "finchley", "barnet", "edgware", "harrow", "wembley", "ealing",
      "acton", "shepherd", "hammersmith", "fulham", "putney", "wandsworth",
      "wimbledon", "tooting", "balham", "streatham", "tulse hill",
      "herne hill", "denmark hill", "penge", "crystal palace", "sydenham",
      "forest hill", "catford", "ladywell", "brockley", "new cross",
      "deptford", "surrey quays", "canada water", "rotherhithe", "wapping",
      "shadwell", "limehouse", "poplar", "drayton park", "essex road",
      "hornsey", "crouch hill", "harringay" ]

/-- find_commutable_areas.py line 97. -/
def keywordHit (name station : Str) : Bool :=
  londonKeywords.any fun kw =>
    hasSubCL (lowStr name) kw || hasSubCL (lowStr station) kw

/-- find_commutable_areas.py lines 60-107: keyword match short-circuits to
True, otherwise the distance test against the 15 km threshold decides. -/
def is_london_zone_1_4 (name station : Str) (distKm : ℚ) : Bool :=
  if keywordHit name station then true
  else if distKm < 15 then true else false

/-! ## Concrete configurations and inputs used in the theorems below -/

/-- A configuration with max_minutes 60 and the code's defaults for the
remaining keys. -/
def stdCriteria : Criteria := { max_minutes := 60 }

/-- The weight table of the spec's worked example:
commute 35, nature 20, amenities 10, price 25, general_vibe 5,
safety 15 (sum 110). -/
def defaultScoringWeights : Weights :=
  { commute := some 35, nature := some 20, amenities := some 10,
    price := some 25, general_vibe := some 5, safety := some 15 }

def aSupermarket : POIItem :=
  { name := "Tesco".data, lat := 0, lng := 0, distance_m := 100 }

/-- An amenities result with three supermarkets (amenities sub-score 100). -/
def threeSupermarkets : AmenitiesResult :=
  { supermarkets := [aSupermarket, aSupermarket, aSupermarket],
    pharmacies := [], restaurants := [], api_success := true, error := none }

/-- A nature result with parks_count 7 and no countryside access
(nature sub-score min(100, 105) = 100). -/
def sevenParks : NatureResult :=
  { parks := [], parks_count := 7, nature_reserves := [],
    countryside_access := false, api_success := true, error := none }

/-- A successful crime result with weighted crime count 15
(safety sub-score 100). -/
def lowCrime : CrimeResult :=
  { total_crimes := 10, crimes_by_category := [], month := none,
    serious_crimes := 5, property_crimes := 0, antisocial_behaviour := 0,
    api_success := true, error := none }

/-- A successful crime result with weighted crime count 150 (inside the
good..acceptable band at the default thresholds). -/
def midCrime : CrimeResult :=
  { total_crimes := 120, crimes_by_category := [], month := none,
    serious_crimes := 30, property_crimes := 0, antisocial_behaviour := 0,
    api_success := true, error := none }

/-- A retried call failing twice with HTTP 503, succeeding third. -/
def retryScript503 : ℕ → AttemptOutcome ℕ :=
  fun n => if n < 2 then .httpError 503 else .success 42

/-- A retried call failing twice with HTTP 429, succeeding third. -/
def retryScript429 : ℕ → AttemptOutcome ℕ :=
  fun n => if n < 2 then .httpError 429 else .success 42

/-- A retried call failing with HTTP 503 on every attempt. -/
def retryScriptFail : ℕ → AttemptOutcome ℕ := fun _ => .httpError 503

/-- A trivial distance oracle for concrete gatherer inputs. -/
def zeroDist : ℚ → ℚ → ℚ → ℚ → ℤ := fun _ _ _ _ => 0

/-! ## Helper lemmas -/

theorem pyRound_nonneg (q : ℚ) (h : 0 ≤ q) : 0 ≤ pyRound q := by
  unfold pyRound
  have hf : (0 : ℤ) ≤ ⌊q⌋ := Int.floor_nonneg.mpr h
  split_ifs <;> omega

theorem pyRound_le_add_half (q : ℚ) : (pyRound q : ℚ) ≤ q + 1/2 := by
  unfold pyRound
  have h1 : (⌊q⌋ : ℚ) ≤ q := Int.floor_le q
  have h2 : q < ⌊q⌋ + 1 := Int.lt_floor_add_one q
  split_ifs with ha hb hc
  · push_cast; linarith
  · push_cast; linarith
  · push_cast; linarith
  · have : 1/2 ≤ q - ⌊q⌋ := le_of_not_lt ha
    push_cast; linarith

theorem commuteBase_bounds (cr : Criteria) (c : ℚ) :
    0 ≤ commuteBase cr c ∧ commuteBase cr c ≤ 100 := by
  unfold commuteBase
  split_ifs with h1 h2
  · norm_num
  · norm_num
  · push_neg at h1 h2
    have hd : (0 : ℚ) < cr.max_minutes - 30 := by linarith
    have ht0 : 0 < (c - 30) / (cr.max_minutes - 30) :=
      div_pos (by linarith) hd
    have ht1 : (c - 30) / (cr.max_minutes - 30) < 1 :=
      (div_lt_one hd).mpr (by linarith)
    constructor <;> nlinarith

theorem commuteSubScore_bounds (cr : Criteria) (a : Area)
    (hpen : 0 ≤ cr.penalty_per_change) :
    0 ≤ commuteSubScore cr a ∧ commuteSubScore cr a ≤ 100 := by
  obtain ⟨hb0, hb1⟩ := commuteBase_bounds cr (commuteValue cr a)
  unfold commuteSubScore
  split_ifs
  · refine ⟨le_max_left _ _, max_le (by norm_num) ?_⟩
    have : 0 ≤ (a.mainline_changes : ℚ) * cr.penalty_per_change := by positivity
    linarith
  · exact ⟨hb0, hb1⟩

theorem natureSubScore_bounds (nature : NatureResult) :
    0 ≤ natureSubScore nature ∧ natureSubScore nature ≤ 100 := by
  unfold natureSubScore
  have h0 : (0 : ℚ) ≤ (nature.parks_count : ℚ) * 15 := by positivity
  split_ifs
  · refine ⟨le_min (by norm_num) ?_, min_le_left _ _⟩
    have : (0 : ℚ) ≤ min 100 ((nature.parks_count : ℚ) * 15) :=
      le_min (by norm_num) h0
    linarith
  · exact ⟨le_min (by norm_num) h0, min_le_left _ _⟩

theorem amenitiesSubScore_bounds (amenities : AmenitiesResult) :
    0 ≤ amenitiesSubScore amenities ∧ amenitiesSubScore amenities ≤ 100 := by
  unfold amenitiesSubScore
  dsimp only
  split_ifs with h1 h2
  · norm_num
  · have hn2 : amenities.supermarkets.length ≤ 2 := by omega
    have hlo : (1 : ℚ) ≤ (amenities.supermarkets.length : ℚ) := by
      exact_mod_cast h2
    have hhi : (amenities.supermarkets.length : ℚ) ≤ 2 := by
      exact_mod_cast hn2
    constructor <;> linarith
  · norm_num

theorem safetySubScore_bounds (cr : Criteria) (crime : Option CrimeResult)
    (he : cr.excellent_threshold < cr.good_threshold)
    (hg : cr.good_threshold < cr.acceptable_threshold)
    (ha : 0 < cr.acceptable_threshold) :
    0 ≤ safetySubScore cr crime ∧ safetySubScore cr crime ≤ 100 := by
  unfold safetySubScore
  cases crime with
  | none => norm_num
  | some c =>
    dsimp only
    split_ifs with hs h1 h2 h3
    · norm_num
    · push_neg at h1
      have hd : (0 : ℚ) < cr.good_threshold - cr.excellent_threshold := by linarith
      have ht0 : 0 < (weightedCrimes c - cr.excellent_threshold) /
          (cr.good_threshold - cr.excellent_threshold) := div_pos (by linarith) hd
      have ht1 : (weightedCrimes c - cr.excellent_threshold) /
          (cr.good_threshold - cr.excellent_threshold) ≤ 1 :=
        (div_le_one hd).mpr (by linarith)
      constructor <;> nlinarith
    · push_neg at h2
      have hd : (0 : ℚ) < cr.acceptable_threshold - cr.good_threshold := by linarith
      have ht0 : 0 < (weightedCrimes c - cr.good_threshold) /
          (cr.acceptable_threshold - cr.good_threshold) := div_pos (by linarith) hd
      have ht1 : (weightedCrimes c - cr.good_threshold) /
          (cr.acceptable_threshold - cr.good_threshold) ≤ 1 :=
        (div_le_one hd).mpr (by linarith)
      constructor <;> nlinarith
    · push_neg at h3
      have ht0 : 0 < (weightedCrimes c - cr.acceptable_threshold) /
          cr.acceptable_threshold := div_pos (by linarith) ha
      refine ⟨le_max_left _ _, max_le (by norm_num) (by nlinarith)⟩
    · norm_num

theorem contrib_nonneg (w : Option ℚ) (s : ℚ) (hw : 0 ≤ w.getD 0)
    (hs : 0 ≤ s) : 0 ≤ contrib w s := by
  cases w with
  | none => simp [contrib]
  | some v =>
    simp only [contrib, Option.getD_some] at *
    positivity

theorem contrib_le (w : Option ℚ) (s : ℚ) (hw : 0 ≤ w.getD 0)
    (hs0 : 0 ≤ s) (hs1 : s ≤ 100) : contrib w s ≤ w.getD 0 := by
  cases w with
  | none => simp [contrib]
  | some v =>
    simp only [contrib, Option.getD_some] at *
    have : s / 100 ≤ 1 := (div_le_one (by norm_num)).mpr hs1
    nlinarith

theorem retryFrom_calls_le {α : Type} (script : ℕ → AttemptOutcome α)
    (m : ℕ) (maxD : ℚ) (retryOn : List ℕ) :
    ∀ fuel attempt delay,
      (retryFrom script m maxD retryOn attempt fuel delay).calls ≤ fuel := by
  intro fuel
  induction fuel with
  | zero => intro attempt delay; simp [retryFrom]
  | succ f ih =>
    intro attempt delay
    cases hsc : script attempt with
    | success v => simp [retryFrom, hsc]
    | httpError s =>
      simp only [retryFrom, hsc]
      split_ifs <;> simp [consSleep] <;> exact ih _ _
    | timeoutErr =>
      simp only [retryFrom, hsc]
      split_ifs <;> simp [consSleep] <;> exact ih _ _
    | connectErr =>
      simp only [retryFrom, hsc]
      split_ifs <;> simp [consSleep] <;> exact ih _ _
    | otherErr =>
      simp only [retryFrom, hsc]
      split_ifs <;> simp [consSleep] <;> exact ih _ _

theorem keywordHit_of_name (name station kw : Str)
    (hmem : kw ∈ londonKeywords) (h : hasSubCL (lowStr name) kw = true) :
    keywordHit name station = true := by
  unfold keywordHit
  rw [List.any_eq_true]
  exact ⟨kw, hmem, by simp [h]⟩

/-! ## Claim theorems -/

/-- C1: for every area dict and configured max_minutes (the configured
ceiling exceeding the 30-minute knee that the claim's interpolation
formula presupposes), score_area computes the commute sub-score
piecewise-linearly — at most 30 minutes gives 100 independent of the
ceiling, at least max_minutes gives 0, strictly between gives
100 - ((commute - 30)/(max_minutes - 30))*100 — and when the area records
mainline_changes > 0, mainline_changes * penalty_per_change is subtracted
and the result floored at 0. -/
theorem claim_C1_commute_piecewise (cr : Criteria) (c : ℚ) (n : ℕ)
    (hmax : 30 < cr.max_minutes) :
    (c ≤ 30 → commuteBase cr c = 100) ∧
    (cr.max_minutes ≤ c → commuteBase cr c = 0) ∧
    (30 < c → c < cr.max_minutes →
      commuteBase cr c = 100 - ((c - 30) / (cr.max_minutes - 30)) * 100) ∧
    (0 < n →
      commuteSubScore cr { commute_minutes := some c, mainline_changes := n } =
        max 0 (commuteBase cr c - (n : ℚ) * cr.penalty_per_change)) := by
  refine ⟨?_, ?_, ?_, ?_⟩
  · intro h
    unfold commuteBase
    rw [if_pos h]
  · intro h
    unfold commuteBase
    rw [if_neg (by linarith), if_pos h]
  · intro h1 h2
    unfold commuteBase
    rw [if_neg (by linarith), if_neg (by linarith)]
  · intro h
    unfold commuteSubScore commuteValue
    simp [h]

theorem claim_C1_witness :
    ((45 : ℚ) ≤ 30 →
      commuteBase { max_minutes := 90 } 45 = 100) ∧
    (({ max_minutes := 90 } : Criteria).max_minutes ≤ 45 →
      commuteBase { max_minutes := 90 } 45 = 0) ∧
    ((30 : ℚ) < 45 → (45 : ℚ) < ({ max_minutes := 90 } : Criteria).max_minutes →
      commuteBase { max_minutes := 90 } 45 =
        100 - ((45 - 30) / (({ max_minutes := 90 } : Criteria).max_minutes - 30)) * 100) ∧
    (0 < 1 →
      commuteSubScore { max_minutes := 90 }
          { commute_minutes := some 45, mainline_changes := 1 } =
        max 0 (commuteBase { max_minutes := 90 } 45 -
          (1 : ℚ) * ({ max_minutes := 90 } : Criteria).penalty_per_change)) :=
  claim_C1_commute_piecewise { max_minutes := 90 } 45 1 (by norm_num)

/-- C4: evaluation of the departure-time computation shared by both
travel-time providers.  On a weekday before 08:00 the departure is the
same day at 08:00, and on Saturday/Sunday it is the following Monday; but
on a Friday (weekday 4) at or after 08:00 the code adds exactly one day,
departing on the Saturday (weekday 5) — not the next weekday, as both the
claim and the function's own docstring require. -/
theorem claim_C4_friday_after_8 :
    nextWeekday8amOffset 4 9 = 1 ∧
    departureWeekday 4 9 = 5 ∧
    ¬ (departureWeekday 4 9 < 5) ∧
    nextWeekday8amOffset 4 7 = 0 ∧
    nextWeekday8amOffset 0 9 = 1 ∧ departureWeekday 0 9 = 1 ∧
    nextWeekday8amOffset 5 23 = 2 ∧ departureWeekday 5 23 = 0 ∧
    nextWeekday8amOffset 6 3 = 1 ∧ departureWeekday 6 3 = 0 := by
  decide

/-- C5 counterexample: when the snapshot is absent and the external
station source succeeds but returns no station nodes, the refreshed
directory is empty — the external call did not fail, so the fallback list
is not substituted, refuting the claim that the directory is never empty
after the load-or-refresh sequence. -/
theorem claim_C5_counterexample :
    loadOrRefresh none (Except.ok []) = [] ∧
    refreshResult (Except.ok []) = [] := ⟨rfl, rfl⟩

/-- C5 amended: after the load-or-refresh sequence the directory is
nonempty whenever the external source FAILED (the hardcoded fallback list
of 10 stations is substituted and persisted), and refresh never raises —
every external outcome, including failure, produces a normal result.  A
successful external query returning zero station nodes can still leave
the directory empty. -/
theorem claim_C5_never_empty_on_failure (snapshot : Option (List Station))
    (ext : Except Str (List RawStationElement)) :
    (∀ msg, ext = Except.error msg → refreshResult ext = fallbackStations) ∧
    (∀ msg, ext = Except.error msg → loadOrRefresh snapshot ext ≠ []) ∧
    (∃ l, refreshE ext = Except.ok l) ∧
    10 ≤ fallbackStations.length := by
  refine ⟨?_, ?_, ⟨refreshResult ext, rfl⟩, by norm_num [fallbackStations]⟩
  · intro msg h
    subst h
    rfl
  · intro msg h
    subst h
    cases snapshot with
    | none => simp [loadOrRefresh, refreshResult, fallbackStations]
    | some s =>
      by_cases hs : s = []
      · simp [loadOrRefresh, hs, refreshResult, fallbackStations]
      · simp [loadOrRefresh, hs]

theorem claim_C5_witness :
    loadOrRefresh none (Except.error "boom".data) ≠ [] :=
  (claim_C5_never_empty_on_failure none (Except.error "boom".data)).2.1
    "boom".data rfl

/-- C7: after cache_time(name, m), resolving any name equal up to letter
case returns m from the cache with zero provider queries — keys are
lowercased and a cached value is authoritative. -/
theorem claim_C7_cache_idempotent (env : ProviderEnv) (cache : Cache)
    (name name2 : Str) (m : ℕ) (hcase : lowStr name2 = lowStr name) :
    get_cached_time (cache_time cache name m) name2 = some m ∧
    get_train_time_to_kx env (cache_time cache name m) name2 = (some m, 0) := by
  have h1 : get_cached_time (cache_time cache name m) name2 = some m := by
    unfold get_cached_time cache_time
    rw [hcase, if_pos rfl]
  refine ⟨h1, ?_⟩
  unfold get_train_time_to_kx
  rw [h1]

theorem claim_C7_witness :
    get_cached_time (cache_time emptyCache "Cambridge".data 48)
      "CAMBRIDGE".data = some 48 ∧
    get_train_time_to_kx ⟨true, some 99, true, some 77⟩
      (cache_time emptyCache "Cambridge".data 48) "CAMBRIDGE".data =
      (some 48, 0) :=
  claim_C7_cache_idempotent ⟨true, some 99, true, some 77⟩ emptyCache
    "Cambridge".data "CAMBRIDGE".data 48 (by decide)

/-- C9: the exclusion-zone classification is true exactly when a keyword
matches the (lowercased) name or station name, or the computed
great-circle distance from the hub is under 15 km; a station named
"London Bridge" is in-zone at any distance, and any station within 15 km
is in-zone regardless of name.  The floating-point haversine value is the
abstracted distKm argument. -/
theorem claim_C9_exclusion_zone (name station : Str) (distKm : ℚ) :
    (is_london_zone_1_4 name station distKm = true ↔
      (keywordHit name station = true ∨ distKm < 15)) ∧
    (is_london_zone_1_4 "London Bridge".data station distKm = true) ∧
    (distKm < 15 → is_london_zone_1_4 name station distKm = true) := by
  refine ⟨⟨?_, ?_⟩, ?_, ?_⟩
  · intro h
    by_cases hk : keywordHit name station = true
    · exact Or.inl hk
    · right
      unfold is_london_zone_1_4 at h
      rw [if_neg hk] at h
      by_cases hd : distKm < 15
      · exact hd
      · rw [if_neg hd] at h
        exact absurd h (by simp)
  · intro h
    unfold is_london_zone_1_4
    rcases h with hk | hd
    · rw [if_pos hk]
    · by_cases hk : keywordHit name station = true
      · rw [if_pos hk]
      · rw [if_neg hk, if_pos hd]
  · unfold is_london_zone_1_4
    rw [if_pos (keywordHit_of_name "London Bridge".data station
      "london ".data (by decide) (by decide))]
  · intro hd
    unfold is_london_zone_1_4
    by_cases hk : keywordHit name station = true
    · rw [if_pos hk]
    · rw [if_neg hk, if_pos hd]

theorem claim_C9_witness :
    (is_london_zone_1_4 "Sandy".data "Sandy".data 50 = true ↔
      (keywordHit "Sandy".data "Sandy".data = true ∨ (50 : ℚ) < 15)) ∧
    (is_london_zone_1_4 "London Bridge".data "Sandy".data 50 = true) ∧
    ((50 : ℚ) < 15 → is_london_zone_1_4 "Sandy".data "Sandy".data 50 = true) :=
  claim_C9_exclusion_zone "Sandy".data "Sandy".data 50

/-- C6: the safety sub-score is exactly 70 when crime data is absent or
api_success is false, regardless of the other crime fields; with data,
writing w = total_crimes + serious_crimes, the score is 100 up to the
excellent threshold, follows the linear band formulas on
(excellent, good] (100 down to 80, value 80 at good) and on
(good, acceptable] (80 down to 50, value 50 at acceptable), and above
acceptable is the 50-toward-0 line floored at 0, hitting 0 exactly when
w ≥ 2 * acceptable. -/
theorem claim_C6_safety_bands (cr : Criteria) (crime : Option CrimeResult)
    (he : cr.excellent_threshold < cr.good_threshold)
    (hg : cr.good_threshold < cr.acceptable_threshold)
    (ha : 0 < cr.acceptable_threshold) :
    (crime = none → safetySubScore cr crime = 70) ∧
    (∀ c, crime = some c → c.api_success = false →
      safetySubScore cr crime = 70) ∧
    (∀ c, crime = some c → c.api_success = true →
      ((weightedCrimes c ≤ cr.excellent_threshold →
        safetySubScore cr crime = 100) ∧
      (cr.excellent_threshold < weightedCrimes c →
        weightedCrimes c ≤ cr.good_threshold →
        safetySubScore cr crime =
          100 - ((weightedCrimes c - cr.excellent_threshold) /
            (cr.good_threshold - cr.excellent_threshold)) * 20) ∧
      (weightedCrimes c = cr.good_threshold →
        safetySubScore cr crime = 80) ∧
      (cr.good_threshold < weightedCrimes c →
        weightedCrimes c ≤ cr.acceptable_threshold →
        safetySubScore cr crime =
          80 - ((weightedCrimes c - cr.good_threshold) /
            (cr.acceptable_threshold - cr.good_threshold)) * 30) ∧
      (weightedCrimes c = cr.acceptable_threshold →
        safetySubScore cr crime = 50) ∧
      (cr.acceptable_threshold < weightedCrimes c →
        safetySubScore cr crime =
          max 0 (50 - ((weightedCrimes c - cr.acceptable_threshold) /
            cr.acceptable_threshold) * 50)) ∧
      (cr.acceptable_threshold < weightedCrimes c →
        (safetySubScore cr crime = 0 ↔
          2 * cr.acceptable_threshold ≤ weightedCrimes c)))) := by
  refine ⟨?_, ?_, ?_⟩
  · intro h
    subst h
    rfl
  · intro c h hfalse
    subst h
    simp [safetySubScore, hfalse]
  · intro c h htrue
    subst h
    have hb : safetySubScore cr (some c) =
        (if weightedCrimes c ≤ cr.excellent_threshold then (100 : ℚ)
         else if weightedCrimes c ≤ cr.good_threshold then
           100 - ((weightedCrimes c - cr.excellent_threshold) /
             (cr.good_threshold - cr.excellent_threshold)) * 20
         else if weightedCrimes c ≤ cr.acceptable_threshold then
           80 - ((weightedCrimes c - cr.good_threshold) /
             (cr.acceptable_threshold - cr.good_threshold)) * 30
         else max 0 (50 - ((weightedCrimes c - cr.acceptable_threshold) /
           cr.acceptable_threshold) * 50)) := by
      simp [safetySubScore, htrue]
    have hneg : cr.good_threshold - cr.excellent_threshold ≠ 0 := by linarith
    have hnag : cr.acceptable_threshold - cr.good_threshold ≠ 0 := by linarith
    refine ⟨?_, ?_, ?_, ?_, ?_, ?_, ?_⟩
    · intro h1
      rw [hb, if_pos h1]
    · intro h1 h2
      rw [hb, if_neg (not_le.mpr h1), if_pos h2]
    · intro heq
      rw [hb, if_neg (by rw [heq]; exact not_le.mpr he), if_pos (le_of_eq heq),
        heq, div_self hneg]
      norm_num
    · intro h1 h2
      rw [hb, if_neg (not_le.mpr (by linarith)), if_neg (not_le.mpr h1),
        if_pos h2]
    · intro heq
      rw [hb, if_neg (by rw [heq]; exact not_le.mpr (by linarith)),
        if_neg (by rw [heq]; exact not_le.mpr hg), if_pos (le_of_eq heq),
        heq, div_self hnag]
      norm_num
    · intro h1
      rw [hb, if_neg (not_le.mpr (by linarith)),
        if_neg (not_le.mpr (by linarith)), if_neg (not_le.mpr h1)]
    · intro h1
      rw [hb, if_neg (not_le.mpr (by linarith)),
        if_neg (not_le.mpr (by linarith)), if_neg (not_le.mpr h1),
        max_eq_left_iff, sub_nonpos, div_mul_eq_mul_div, le_div_iff ha]
      constructor
      · intro hx
        linarith
      · intro hx
        linarith

theorem claim_C6_witness :
    safetySubScore stdCriteria (some midCrime) =
      80 - ((weightedCrimes midCrime - stdCriteria.good_threshold) /
        (stdCriteria.acceptable_threshold - stdCriteria.good_threshold)) * 30 :=
  (((claim_C6_safety_bands stdCriteria (some midCrime)
      (by norm_num [stdCriteria]) (by norm_num [stdCriteria])
      (by norm_num [stdCriteria])).2.2) midCrime rfl rfl).2.2.2.1
    (by norm_num [stdCriteria, weightedCrimes, midCrime])
    (by norm_num [stdCriteria, weightedCrimes, midCrime])

/-- C2 counterexample: with the spec's own weight table (sum 110) and
achievable sub-scores — commute 25 min direct (100), seven parks (100),
three supermarkets (100), low crime (100), the fixed placeholders 70 for
price and general_vibe — score_area returns 101, outside 0..100. -/
theorem claim_C2_counterexample :
    score_area stdCriteria defaultScoringWeights { commute_minutes := some 25 }
      threeSupermarkets sevenParks (some lowCrime) = 101 ∧
    100 < score_area stdCriteria defaultScoringWeights
      { commute_minutes := some 25 } threeSupermarkets sevenParks
      (some lowCrime) := by
  have h : score_area stdCriteria defaultScoringWeights
      { commute_minutes := some 25 } threeSupermarkets sevenParks
      (some lowCrime) = 101 := by
    simp [score_area, stdCriteria, defaultScoringWeights, threeSupermarkets,
      sevenParks, lowCrime, commuteSubScore, commuteBase, commuteValue,
      natureSubScore, amenitiesSubScore, safetySubScore, weightedCrimes,
      contrib, pyRound]
    norm_num
  exact ⟨h, by rw [h]; norm_num⟩

/-- C2 amended: for every input, non-negative weight table and sensible
scoring configuration (non-negative penalty, increasing positive
thresholds), score_area returns an integer that is at least 0 and at most
the sum of the supplied weights plus one half — so it stays within 0..100
only when the weights sum to at most 99.5; the default table (sum 110)
can produce 101. -/
theorem claim_C2_score_bounds (cr : Criteria) (w : Weights) (area : Area)
    (amen : AmenitiesResult) (nature : NatureResult)
    (crime : Option CrimeResult)
    (hwc : 0 ≤ w.commute.getD 0) (hwn : 0 ≤ w.nature.getD 0)
    (hwa : 0 ≤ w.amenities.getD 0) (hwp : 0 ≤ w.price.getD 0)
    (hwv : 0 ≤ w.general_vibe.getD 0) (hws : 0 ≤ w.safety.getD 0)
    (hpen : 0 ≤ cr.penalty_per_change)
    (he : cr.excellent_threshold < cr.good_threshold)
    (hg : cr.good_threshold < cr.acceptable_threshold)
    (ha : 0 < cr.acceptable_threshold) :
    0 ≤ score_area cr w area amen nature crime ∧
    (score_area cr w area amen nature crime : ℚ) ≤ weightSum w + 1/2 := by
  obtain ⟨h10, h11⟩ := commuteSubScore_bounds cr area hpen
  obtain ⟨h20, h21⟩ := natureSubScore_bounds nature
  obtain ⟨h30, h31⟩ := amenitiesSubScore_bounds amen
  obtain ⟨h40, h41⟩ := safetySubScore_bounds cr crime he hg ha
  have t1 := contrib_nonneg w.commute _ hwc h10
  have t2 := contrib_nonneg w.nature _ hwn h20
  have t3 := contrib_nonneg w.amenities _ hwa h30
  have t4 := contrib_nonneg w.price 70 hwp (by norm_num)
  have t5 := contrib_nonneg w.general_vibe 70 hwv (by norm_num)
  have t6 := contrib_nonneg w.safety _ hws h40
  have u1 := contrib_le w.commute _ hwc h10 h11
  have u2 := contrib_le w.nature _ hwn h20 h21
  have u3 := contrib_le w.amenities _ hwa h30 h31
  have u4 := contrib_le w.price 70 hwp (by norm_num) (by norm_num)
  have u5 := contrib_le w.general_vibe 70 hwv (by norm_num) (by norm_num)
  have u6 := contrib_le w.safety _ hws h40 h41
  unfold score_area
  constructor
  · exact pyRound_nonneg _ (by linarith)
  · have hhalf := pyRound_le_add_half
      (contrib w.commute (commuteSubScore cr area) +
       contrib w.nature (natureSubScore nature) +
       contrib w.amenities (amenitiesSubScore amen) +
       contrib w.price 70 + contrib w.general_vibe 70 +
       contrib w.safety (safetySubScore cr crime))
    unfold weightSum
    linarith

theorem claim_C2_witness :
    0 ≤ score_area stdCriteria defaultScoringWeights
        { commute_minutes := some 40 } threeSupermarkets sevenParks
        (some lowCrime) ∧
    (score_area stdCriteria defaultScoringWeights
        { commute_minutes := some 40 } threeSupermarkets sevenParks
        (some lowCrime) : ℚ) ≤ weightSum defaultScoringWeights + 1/2 :=
  claim_C2_score_bounds stdCriteria defaultScoringWeights
    { commute_minutes := some 40 } threeSupermarkets sevenParks
    (some lowCrime)
    (by norm_num [defaultScoringWeights]) (by norm_num [defaultScoringWeights])
    (by norm_num [defaultScoringWeights]) (by norm_num [defaultScoringWeights])
    (by norm_num [defaultScoringWeights]) (by norm_num [defaultScoringWeights])
    (by norm_num [stdCriteria]) (by norm_num [stdCriteria])
    (by norm_num [stdCriteria]) (by norm_num [stdCriteria])

/-- C3 counterexample: a call failing twice with HTTP 429 then succeeding
sleeps 4 s then 16 s before the success — the code doubles the delay
BEFORE sleeping on a 429, so the 429 schedule is not the 2 s then 4 s
schedule of the other retryable statuses. -/
theorem claim_C3_counterexample :
    (retry_with_backoff retryScript429).sleeps = [4, 16] ∧
    (retry_with_backoff retryScript429).result = Except.ok 42 ∧
    (retry_with_backoff retryScript429).sleeps ≠ [2, 4] := by
  have h1 : (retry_with_backoff retryScript429).sleeps = [4, 16] := by
    simp [retry_with_backoff, retryFrom, retryScript429, defaultRetryOn,
      consSleep]
    norm_num
  refine ⟨h1, ?_, ?_⟩
  · simp [retry_with_backoff, retryFrom, retryScript429, defaultRetryOn,
      consSleep]
  · rw [h1]
    intro hcontra
    have := List.head_eq_of_cons_eq hcontra
    norm_num at this

/-- C3 amended: the retry helper makes at most 3 attempts and returns the
first successful result; failing twice with HTTP 503 then succeeding
sleeps 2 s then 4 s with no third delay; HTTP 429 failures use a doubled
schedule — the delay is doubled (capped at 30 s) before each 429 sleep,
giving 4 s then 16 s; after the third consecutive failure the last error
is raised to the calling gatherer. -/
theorem claim_C3_retry_schedule :
    (retry_with_backoff retryScript503).result = Except.ok 42 ∧
    (retry_with_backoff retryScript503).sleeps = [2, 4] ∧
    (retry_with_backoff retryScript503).calls = 3 ∧
    (retry_with_backoff retryScript429).result = Except.ok 42 ∧
    (retry_with_backoff retryScript429).sleeps = [4, 16] ∧
    (retry_with_backoff retryScriptFail).result =
      Except.error (RetryError.httpError 503) ∧
    (∀ script : ℕ → AttemptOutcome ℕ,
      (retry_with_backoff script).calls ≤ 3) := by
  refine ⟨?_, ?_, ?_, ?_, ?_, ?_, ?_⟩
  · simp [retry_with_backoff, retryFrom, retryScript503, defaultRetryOn,
      consSleep]
  · simp [retry_with_backoff, retryFrom, retryScript503, defaultRetryOn,
      consSleep]
    norm_num
  · simp [retry_with_backoff, retryFrom, retryScript503, defaultRetryOn,
      consSleep]
  · simp [retry_with_backoff, retryFrom, retryScript429, defaultRetryOn,
      consSleep]
  · simp [retry_with_backoff, retryFrom, retryScript429, defaultRetryOn,
      consSleep]
    norm_num
  · simp [retry_with_backoff, retryFrom, retryScriptFail, defaultRetryOn,
      consSleep]
  · intro script
    exact retryFrom_calls_le script 3 30 defaultRetryOn 3 0 2

/-- C8: each gatherer is a total function of the external outcome (never
raises to its caller); on total failure it returns the schema-complete
zero-value record with api_success false and a non-empty error
description, and on success api_success is true with no error. -/
theorem claim_C8_gatherers_structured (distM : ℚ → ℚ → ℚ → ℚ → ℤ)
    (lat lng : ℚ) (e : FetchError) :
    gather_amenities distM lat lng (Except.error e) =
      { supermarkets := [], pharmacies := [], restaurants := [],
        api_success := false, error := some (amenitiesErrorMsg e) } ∧
    amenitiesErrorMsg e ≠ [] ∧
    (∀ elements,
      (gather_amenities distM lat lng (Except.ok elements)).api_success = true ∧
      (gather_amenities distM lat lng (Except.ok elements)).error = none) ∧
    gather_nature_data distM lat lng (Except.error e) =
      { parks := [], parks_count := 0, nature_reserves := [],
        countryside_access := false, api_success := false,
        error := some (natureErrorMsg e) } ∧
    natureErrorMsg e ≠ [] ∧
    (∀ elements,
      (gather_nature_data distM lat lng (Except.ok elements)).api_success = true ∧
      (gather_nature_data distM lat lng (Except.ok elements)).error = none) ∧
    gather_crime_data (Except.error e) =
      { total_crimes := 0, crimes_by_category := [], month := none,
        serious_crimes := 0, property_crimes := 0, antisocial_behaviour := 0,
        api_success := false, error := some (crimeErrorMsg e) } ∧
    crimeErrorMsg e ≠ [] ∧
    (∀ incidents,
      (gather_crime_data (Except.ok incidents)).api_success = true ∧
      (gather_crime_data (Except.ok incidents)).error = none) := by
  refine ⟨rfl, ?_, fun _ => ⟨rfl, rfl⟩, rfl, ?_, fun _ => ⟨rfl, rfl⟩,
    rfl, ?_, fun _ => ⟨rfl, rfl⟩⟩
  · cases e <;> simp [amenitiesErrorMsg]
  · cases e <;> simp [natureErrorMsg]
  · cases e <;> simp [crimeErrorMsg]

theorem claim_C8_witness :
    gather_amenities zeroDist 0 0 (Except.error (FetchError.timeoutErr "boom".data)) =
      { supermarkets := [], pharmacies := [], restaurants := [],
        api_success := false,
        error := some (amenitiesErrorMsg (FetchError.timeoutErr "boom".data)) } ∧
    gather_crime_data (Except.error (FetchError.timeoutErr "boom".data)) =
      { total_crimes := 0, crimes_by_category := [], month := none,
        serious_crimes := 0, property_crimes := 0, antisocial_behaviour := 0,
        api_success := false,
        error := some (crimeErrorMsg (FetchError.timeoutErr "boom".data)) } :=
  ⟨(claim_C8_gatherers_structured zeroDist 0 0
      (FetchError.timeoutErr "boom".data)).1,
   (claim_C8_gatherers_structured zeroDist 0 0
      (FetchError.timeoutErr "boom".data)).2.2.2.2.2.2.1⟩

/-- C10: an area dict without a commute_minutes key is scored with the
configured max_minutes substituted for the commute value; with a ceiling
above the 30-minute knee and a non-negative penalty the base commute
sub-score is 0 and stays 0 after any mainline-change penalty, and the
whole score_area call succeeds, scoring the area exactly as if it had
commute_minutes = max_minutes. -/
theorem claim_C10_missing_commute (cr : Criteria) (w : Weights) (n : ℕ)
    (amen : AmenitiesResult) (nature : NatureResult)
    (crime : Option CrimeResult)
    (hmax : 30 < cr.max_minutes) (hpen : 0 ≤ cr.penalty_per_change) :
    commuteValue cr { commute_minutes := none, mainline_changes := n } =
      cr.max_minutes ∧
    commuteBase cr cr.max_minutes = 0 ∧
    commuteSubScore cr { commute_minutes := none, mainline_changes := n } = 0 ∧
    score_area cr w { commute_minutes := none, mainline_changes := n }
        amen nature crime =
      score_area cr w
        { commute_minutes := some cr.max_minutes, mainline_changes := n }
        amen nature crime := by
  have hbase : commuteBase cr cr.max_minutes = 0 := by
    unfold commuteBase
    rw [if_neg (by linarith), if_pos le_rfl]
  refine ⟨rfl, hbase, ?_, rfl⟩
  unfold commuteSubScore
  have hval : commuteValue cr { commute_minutes := none, mainline_changes := n } =
      cr.max_minutes := rfl
  rw [hval, hbase]
  have hp : (0 : ℚ) ≤ (n : ℚ) * cr.penalty_per_change := by positivity
  split_ifs
  · dsimp only
    rw [zero_sub, max_eq_left (by linarith)]
  · rfl

theorem claim_C10_witness :
    commuteValue stdCriteria { commute_minutes := none, mainline_changes := 2 } =
      stdCriteria.max_minutes ∧
    commuteBase stdCriteria stdCriteria.max_minutes = 0 ∧
    commuteSubScore stdCriteria
      { commute_minutes := none, mainline_changes := 2 } = 0 ∧
    score_area stdCriteria defaultScoringWeights
        { commute_minutes := none, mainline_changes := 2 }
        threeSupermarkets sevenParks (some lowCrime) =
      score_area stdCriteria defaultScoringWeights
        { commute_minutes := some stdCriteria.max_minutes, mainline_changes := 2 }
        threeSupermarkets sevenParks (some lowCrime) :=
  claim_C10_missing_commute stdCriteria defaultScoringWeights 2
    threeSupermarkets sevenParks (some lowCrime)
    (by norm_num [stdCriteria]) (by norm_num [stdCriteria])

end HomeFinder
